import Mathlib

/-!
Verification of the Lesson Unlock & Reminder Scheduler core of the
leadership-training backend.  The definitions below are a shallow embedding
of `app/services/scheduler_service.py` and `app/services/user_lesson_service.py`
together with the data model of `app/models/*.py`.

Modelling conventions:
* A UTC instant is an integer number of hours since the Unix epoch
  (1970-01-01 00:00 UTC, a Thursday, Python `weekday()` 3).  The scheduler
  only ever inspects the hour and the weekday of an instant, both of which
  are functions of the hour count, so this granularity is faithful.
* `HH:MM` preference strings stay strings; the hour is extracted exactly as
  Python's `int(s.split(":")[0])` does, and the SQL `LIKE "hh:%"` pre-filter
  is a two-digit-prefix test, as in the source.
* A user's lesson rows for the active category are a `List UserLesson` in
  curriculum template order `(week_number, day_number)` ascending - the
  order produced by the source's `order_by(Week.week_number,
  DailyLesson.day_number)` query.
* The SQLAlchemy session is modelled as a pair committed/pending store;
  `commit` copies pending over committed, `rollback` restores pending from
  committed.  Python mutation of a fetched row becomes replacement of the
  first matching list element.
-/

namespace LeaderScheduler

/-- `LessonStatus` enum of `app/models/user_lesson.py`. -/
inductive LessonStatus where
  | locked
  | available
  | completed
deriving DecidableEq

/-- `JourneyStatus` enum of `app/models/user_journey.py`. -/
inductive JourneyStatus where
  | active
  | completed
  | paused
deriving DecidableEq

/-- Row of `weeks` (`app/models/week.py`): `topic` is the category name. -/
structure Week where
  id : Nat
  week_number : Nat
  topic : String
deriving DecidableEq

/-- Row of `daily_lessons` (`app/models/daily_lesson.py`). -/
structure DailyLesson where
  id : Nat
  week_id : Nat
  day_number : Nat
deriving DecidableEq

/-- Row of `user_lessons` (`app/models/user_lesson.py`).  Timestamps are
modelled as optional integers (hours since epoch). -/
structure UserLesson where
  id : Nat
  user_id : Nat
  daily_lesson_id : Nat
  status : LessonStatus
  points_earned : Int
  unlocked_at : Option Int
  started_at : Option Int
  completed_at : Option Int
  days_between_lessons : Nat
deriving DecidableEq

/-- Row of `user_preferences` (`app/models/user_preferences.py`).
`timezone` is `Option String` so that the Python truthiness test
`prefs.timezone or "ET"` can be modelled. -/
structure UserPreferences where
  user_id : Nat
  active_days : List String
  lesson_time : String
  timezone : Option String
  reminder_enabled : String
  reminder_time : String
  reminder_type : String
deriving DecidableEq

/-- Row of `user_journeys` (`app/models/user_journey.py`), restricted to the
fields the scheduler reads. -/
structure UserJourney where
  user_id : Nat
  current_category : Option String
  status : JourneyStatus
deriving DecidableEq

/-- Row of `user_progress` (fields touched by
`_update_user_progress_on_lesson_completion`). -/
structure UserProgress where
  user_id : Nat
  total_points_earned : Int
  total_lessons_completed : Nat
  last_activity_date : Option Int
  current_streak_days : Nat
  longest_streak_days : Nat
deriving DecidableEq

/-- `APIException` of `app/utils/response.py` (status code + message). -/
structure APIException where
  status_code : Nat
  message : String
deriving DecidableEq

/-! ## Locale resolution (`scheduler_service.py` lines 19-41) -/

/-- `TIMEZONE_OFFSETS` dict: the five supported codes and their fixed UTC
offsets in hours; `none` models a key that is absent from the dict. -/
def TIMEZONE_OFFSETS (tz : String) : Option Int :=
  if tz = "ET" then some (-5)
  else if tz = "CT" then some (-6)
  else if tz = "MT" then some (-7)
  else if tz = "PT" then some (-8)
  else if tz = "BDT" then some 6
  else none

/-- `TIMEZONE_OFFSETS.get(tz_code, -5)`: the source's silent default to the
ET offset for unknown codes. -/
def tzOffsetOrDefault (tz : String) : Int :=
  (TIMEZONE_OFFSETS tz).getD (-5)

/-- `get_current_hour_in_timezone`: hour (0-23) of the instant `now` in the
fixed-offset timezone `tz`. -/
def local_hour (now : Int) (tz : String) : Nat :=
  ((now + tzOffsetOrDefault tz) % 24).toNat

/-- Python `datetime.weekday()` (0 = Monday) of the instant `now` shifted
into timezone `tz`; 1970-01-01 has weekday 3 (Thursday). -/
def local_weekday_idx (now : Int) (tz : String) : Nat :=
  ((((now + tzOffsetOrDefault tz) / 24) + 3) % 7).toNat

/-- `day_mapping = {0: "mon", ..., 6: "sun"}`. -/
def day_mapping (i : Nat) : String :=
  if i = 0 then "mon"
  else if i = 1 then "tue"
  else if i = 2 then "wed"
  else if i = 3 then "thu"
  else if i = 4 then "fri"
  else if i = 5 then "sat"
  else "sun"

/-- The list of supported timezone codes iterated by both engines. -/
def tzCodes : List String := ["ET", "CT", "MT", "PT", "BDT"]

/-! ## String helpers for `HH:MM` fields -/

/-- Characters of `s` before the first `':'` - Python `s.split(":")[0]`. -/
def beforeColonChars : List Char → List Char
  | [] => []
  | c :: rest => if c = ':' then [] else c :: beforeColonChars rest

/-- Value of a decimal digit character. -/
def digitVal (c : Char) : Option Nat :=
  if c = '0' then some 0
  else if c = '1' then some 1
  else if c = '2' then some 2
  else if c = '3' then some 3
  else if c = '4' then some 4
  else if c = '5' then some 5
  else if c = '6' then some 6
  else if c = '7' then some 7
  else if c = '8' then some 8
  else if c = '9' then some 9
  else none

/-- Decimal value of a non-empty digit string - Python `int(...)`;
`none` stands for the `ValueError` on malformed input. -/
def natFromDigits (cs : List Char) : Option Nat :=
  if cs = [] then none
  else
    cs.foldl
      (fun acc c =>
        match acc, digitVal c with
        | some n, some d => some (n * 10 + d)
        | _, _ => none)
      (some 0)

/-- Hour field of an `HH:MM` string: `int(s.split(":")[0])`. -/
def timeFieldHour (s : String) : Option Nat :=
  natFromDigits (beforeColonChars s.data)

/-- Digit character for `d` in 0-9. -/
def digitChar (d : Nat) : Char :=
  if d = 0 then '0'
  else if d = 1 then '1'
  else if d = 2 then '2'
  else if d = 3 then '3'
  else if d = 4 then '4'
  else if d = 5 then '5'
  else if d = 6 then '6'
  else if d = 7 then '7'
  else if d = 8 then '8'
  else '9'

/-- Characters of Python `f"{h:02d}:"` for `h < 100`. -/
def hourLikeChars (h : Nat) : List Char :=
  [digitChar (h / 10), digitChar (h % 10), ':']

/-- `cs` is a leading segment of `ds`. -/
def leadMatch : List Char → List Char → Bool
  | [], _ => true
  | _ :: _, [] => false
  | c :: cs, d :: ds => if c = d then leadMatch cs ds else false

/-- The SQL pre-filter `field LIKE "{h:02d}:%"`. -/
def likeHourMatch (h : Nat) (field : String) : Bool :=
  leadMatch (hourLikeChars h) field.data

/-! ## Unlock Engine (`scheduler_service.py` lines 65-240) -/

/-- `prefs.timezone or "ET"`. -/
def userTz (p : UserPreferences) : String :=
  p.timezone.getD "ET"

/-- The per-tick target hours: current hour of each supported timezone
(`timezone_hours.values()` in `_get_users_for_current_hour`). -/
def targetHoursUnlock (now : Int) : List Nat :=
  tzCodes.map (local_hour now)

/-- Database-level candidate filter of `_get_users_for_current_hour`:
`or_(*[lesson_time LIKE "{h:02d}:%" for h in target_hours])`. -/
def hourCandidate (now : Int) (p : UserPreferences) : Bool :=
  (targetHoursUnlock now).any (fun h => likeHourMatch h p.lesson_time)

/-- Per-user authoritative check of `_get_users_for_current_hour`:
today is an active day in the user's own timezone, and the `lesson_time`
hour equals the current hour in that timezone (in that order). -/
def userHourDayMatch (now : Int) (p : UserPreferences) : Bool :=
  decide (day_mapping (local_weekday_idx now (userTz p)) ∈ p.active_days) &&
    (match timeFieldHour p.lesson_time with
     | some h => decide (h = local_hour now (userTz p))
     | none => false)

/-- Final filter of `_get_users_for_current_hour`: the user still has at
least one `LOCKED` lesson. -/
def userHasLockedLesson (ls : List UserLesson) : Bool :=
  ls.any (fun l => decide (l.status = LessonStatus.locked))

/-- The scan of `_get_next_lesson_to_unlock` (lines 224-240): walk the
lessons in template order; at the first `LOCKED` one, succeed (index 0
relative) if there is no previous lesson or the previous lesson's
`completed_at` is set, otherwise fail.  `prev` carries `lessons[i-1]`. -/
def nextToUnlock (prev : Option UserLesson) : List UserLesson → Option Nat
  | [] => none
  | l :: rest =>
    if l.status = LessonStatus.locked then
      match prev with
      | none => some 0
      | some pl => if pl.completed_at.isSome then some 0 else none
    else (nextToUnlock (some l) rest).map (· + 1)

/-- Index of the lesson `_get_next_lesson_to_unlock` returns, if any. -/
def nextLessonIdxToUnlock (ls : List UserLesson) : Option Nat :=
  nextToUnlock none ls

/-- The mutation `next_lesson.status = AVAILABLE; next_lesson.unlocked_at = t`. -/
def unlockedLesson (t : Int) (l : UserLesson) : UserLesson :=
  { l with status := LessonStatus.available, unlocked_at := some t }

/-- Unlock the lesson at position `i`: `status = AVAILABLE`,
`unlocked_at = now` (the caller passes the user-local timestamp). -/
def unlockAt (t : Int) : List UserLesson → Nat → List UserLesson
  | [], _ => []
  | l :: rest, 0 => unlockedLesson t l :: rest
  | l :: rest, Nat.succ i => l :: unlockAt t rest i

/-- The `UserJourney` query of `_get_next_lesson_to_unlock`: the user's
journey row, kept only when its status is `ACTIVE`. -/
def activeJourney (j : Option UserJourney) : Option UserJourney :=
  match j with
  | some jj => if jj.status = JourneyStatus.active then some jj else none
  | none => none

/-- `if not user_journey or not user_journey.current_category: return None`
(Python truthiness: `None` and `""` are both falsy). -/
def journeyEligible (j : Option UserJourney) : Bool :=
  match activeJourney j with
  | none => false
  | some jj =>
    match jj.current_category with
    | none => false
    | some c => decide (c ≠ "")

/-- One user's slice of `unlock_due_lessons` for the instant `now`:
the user is processed when they pass the hour pre-filter, the per-user
day/hour check and the has-a-locked-lesson check; then
`_get_next_lesson_to_unlock` runs and, if it yields a lesson, that lesson
becomes `AVAILABLE` with `unlocked_at` stamped in the user's own timezone. -/
def unlock_due_lessons_user (now : Int) (p : UserPreferences) (j : Option UserJourney)
    (ls : List UserLesson) : List UserLesson :=
  if hourCandidate now p && userHourDayMatch now p && userHasLockedLesson ls then
    if journeyEligible j then
      match nextLessonIdxToUnlock ls with
      | some i => unlockAt (now + tzOffsetOrDefault (userTz p)) ls i
      | none => ls
    else ls
  else ls

/-! ## State predicates used by the spec's properties -/

/-- Every lesson of the list is `LOCKED`. -/
def allLocked (ls : List UserLesson) : Bool :=
  ls.all (fun l => decide (l.status = LessonStatus.locked))

/-- The ordering invariant of spec section 8: the `Available`/`Completed`
instances form a prefix of the template order, i.e. once a `LOCKED` lesson
appears every later lesson is `LOCKED` too. -/
def isPrefixState : List UserLesson → Bool
  | [] => true
  | l :: rest =>
    if l.status = LessonStatus.locked then allLocked rest else isPrefixState rest

/-- `completed_at` is stamped exactly on `COMPLETED` lessons - true of every
state the service code can produce, since `complete_lesson` sets status and
timestamp together. -/
def timestampsWF (ls : List UserLesson) : Bool :=
  ls.all (fun l => decide (l.completed_at.isSome = true ↔ l.status = LessonStatus.completed))

/-- Number of `LOCKED` lessons. -/
def lockedCount (ls : List UserLesson) : Nat :=
  (ls.filter (fun l => decide (l.status = LessonStatus.locked))).length

/-! ## Reminder Engine (`scheduler_service.py` lines 242-470) -/

/-- Target hours of `send_daily_reminders`: for each supported timezone's
current hour `h`, both `h` and `(h - 2) % 24` (a follow-up fired now had its
initial reminder two hours ago). -/
def reminderTargetHours (now : Int) : List Nat :=
  (tzCodes.map (local_hour now)).foldr
    (fun h acc => h :: (((h : Int) - 2) % 24).toNat :: acc) []

/-- Candidate query of `send_daily_reminders`:
`reminder_enabled == "true"`, `reminder_type != "0"`, and
`reminder_time LIKE "{h:02d}:%"` for some target hour `h`. -/
def reminderCandidate (now : Int) (p : UserPreferences) : Bool :=
  decide (p.reminder_enabled = "true") && decide (p.reminder_type ≠ "0") &&
    (reminderTargetHours now).any (fun h => likeHourMatch h p.reminder_time)

/-- The per-type `should_send` decision (lines 328-348), driven by the
current hour in the user's own timezone.  A `reminder_time` with no parsable
hour cannot fire (in Python `int(...)` would raise instead). -/
def reminderShouldSend (now : Int) (p : UserPreferences) : Bool :=
  match timeFieldHour p.reminder_time with
  | none => false
  | some rh =>
    if p.reminder_type = "1" then
      decide (local_hour now (userTz p) = rh)
    else if p.reminder_type = "2" then
      decide (local_hour now (userTz p) = rh) ||
        decide (local_hour now (userTz p) = (rh + 2) % 24)
    else false

/-- Active-day check of `send_daily_reminders` (lines 356-366), in the
user's own timezone. -/
def reminderActiveDayOk (now : Int) (p : UserPreferences) : Bool :=
  decide (day_mapping (local_weekday_idx now (userTz p)) ∈ p.active_days)

/-- The `AVAILABLE`-lesson count of lines 368-372: every lesson of the user
with status `AVAILABLE`, with no category restriction. -/
def availableCount (ls : List UserLesson) : Nat :=
  (ls.filter (fun l => decide (l.status = LessonStatus.available))).length

/-- Whether `send_daily_reminders` reaches `_send_notification` for a user
this tick: candidate query, hour rule, active day, and a non-zero
`AVAILABLE` count, in the source's order. -/
def reminderFires (now : Int) (p : UserPreferences) (ls : List UserLesson) : Bool :=
  reminderCandidate now p && reminderShouldSend now p &&
    reminderActiveDayOk now p && decide (availableCount ls ≠ 0)

/-- Category of a user lesson through its `DailyLesson` and `Week` rows
(the join used by `get_user_lessons_by_category`). -/
def lessonTopic (weeks : List Week) (dls : List DailyLesson) (l : UserLesson) : Option String :=
  match dls.find? (fun d => decide (d.id = l.daily_lesson_id)) with
  | none => none
  | some dl => (weeks.find? (fun w => decide (w.id = dl.week_id))).map (fun w => w.topic)

/-- Modelled from the spec section 4.3 step 4 wording: the count of the
user's `Available` instances restricted to the active category.  The source
(`send_daily_reminders`, lines 368-372) does NOT restrict by category; this
definition exists only to compare the spec's words with the code. -/
def spec_availableCountInCategory (weeks : List Week) (dls : List DailyLesson)
    (ls : List UserLesson) (cat : String) : Nat :=
  (ls.filter (fun l =>
    decide (l.status = LessonStatus.available) &&
      decide (lessonTopic weeks dls l = some cat))).length

/-! ## Notification dispatch (`_send_notification`, lines 404-470) -/

/-- Row of `users` restricted to the fields `_send_notification` reads. -/
structure UserRec where
  id : Nat
  full_name : String
  mobile_number : Option String
deriving DecidableEq

/-- Outcome of one gateway call (`sms_service.send_sms`): it can return
`true`, return `false`, or throw. -/
inductive GatewayOutcome where
  | success
  | failure
  | raised
deriving DecidableEq

/-- Body of `_send_notification` before its `except` clause: look the user
up, skip silently when absent or without a mobile number, otherwise invoke
the gateway; a raising gateway makes the body raise.  The first component
records which user ids the gateway was invoked for. -/
def send_notification_raw (gw : Nat → GatewayOutcome) (users : List UserRec)
    (uid : Nat) : List Nat × Except String Unit :=
  match users.find? (fun u => decide (u.id = uid)) with
  | none => ([], Except.ok ())
  | some u =>
    match u.mobile_number with
    | none => ([], Except.ok ())
    | some _ =>
      match gw uid with
      | GatewayOutcome.raised => ([uid], Except.error "gateway raised")
      | _ => ([uid], Except.ok ())

/-- `_send_notification` with its `except Exception` clause: any exception
of the body is caught and logged, the function always returns normally.
The result is the list of gateway calls that were made. -/
def send_notification (gw : Nat → GatewayOutcome) (users : List UserRec)
    (uid : Nat) : List Nat :=
  match send_notification_raw gw users uid with
  | (calls, Except.ok _) => calls
  | (calls, Except.error _) => calls

/-- One candidate row of the reminder loop. -/
structure ReminderRow where
  prefs : UserPreferences
  user : UserRec
  lessons : List UserLesson
deriving DecidableEq

/-- Loop body of `send_daily_reminders` for one candidate, in the `Except`
monad so that an uncaught exception would abort the whole tick.  The
accumulator carries `sent_count` and the gateway-call trace. -/
def processReminderRow (gw : Nat → GatewayOutcome) (now : Int) (users : List UserRec)
    (acc : Nat × List Nat) (row : ReminderRow) : Except String (Nat × List Nat) :=
  if reminderFires now row.prefs row.lessons then
    Except.ok (acc.1 + 1, acc.2 ++ send_notification gw users row.prefs.user_id)
  else Except.ok acc

/-- `send_daily_reminders` over its candidate rows: fold of the loop body;
returns `sent_count` and the gateway-call trace, or an error if any
iteration raised. -/
def send_daily_reminders_model (gw : Nat → GatewayOutcome) (now : Int)
    (users : List UserRec) (rows : List ReminderRow) : Except String (Nat × List Nat) :=
  rows.foldlM (processReminderRow gw now users) (0, [])

/-! ## Batch persistence of the unlock tick (`unlock_due_lessons`) -/

/-- Data of one user processed by `unlock_due_lessons`. -/
structure UnlockRow where
  prefs : UserPreferences
  journey : Option UserJourney
  lessons : List UserLesson
deriving DecidableEq

/-- Whether `unlock_due_lessons` unlocks a lesson for this user this tick
(the `if next_lesson:` branch that increments `unlocked_count`). -/
def userWillUnlock (now : Int) (p : UserPreferences) (j : Option UserJourney)
    (ls : List UserLesson) : Bool :=
  hourCandidate now p && userHourDayMatch now p && userHasLockedLesson ls &&
    journeyEligible j && (nextLessonIdxToUnlock ls).isSome

/-- All per-user transitions of one unlock tick. -/
def unlock_tick_rows (now : Int) (rows : List UnlockRow) : List UnlockRow :=
  rows.map (fun r => { r with lessons := unlock_due_lessons_user now r.prefs r.journey r.lessons })

/-- `unlocked_count` returned by a successful tick. -/
def countUnlockedRows (now : Int) (rows : List UnlockRow) : Nat :=
  (rows.filter (fun r => userWillUnlock now r.prefs r.journey r.lessons)).length

/-- SQLAlchemy session: `committed` is the database, `pending` the
in-session view mutated by the service before `commit`. -/
structure DbSession where
  committed : List UnlockRow
  pending : List UnlockRow
deriving DecidableEq

/-- `unlock_due_lessons` with its transactional wrapper: mutate the pending
view for every processed user, then `commit` - or, when the batch write
fails (`commitOk = false`), run the `except` branch: `rollback` (pending is
restored from committed, nothing is persisted) and re-raise. -/
def unlock_due_lessons_batch (commitOk : Bool) (now : Int) (s : DbSession) :
    DbSession × Except String Nat :=
  let pending2 := unlock_tick_rows now s.pending
  if commitOk then
    ({ committed := pending2, pending := pending2 },
      Except.ok (countUnlockedRows now s.pending))
  else
    ({ committed := s.committed, pending := s.committed },
      Except.error "PersistenceFailure")

/-! ## UserLessonService (`user_lesson_service.py`) -/

/-- Filter of `get_user_lesson`: `UserLesson.id == lesson_id` and
`UserLesson.user_id == user_id`. -/
def lessonKeyMatch (uid lid : Nat) (l : UserLesson) : Bool :=
  decide (l.id = lid) && decide (l.user_id = uid)

/-- `get_user_lesson`: first matching row or a 404 `APIException`. -/
def get_user_lesson (store : List UserLesson) (uid lid : Nat) :
    Except APIException UserLesson :=
  match store.find? (lessonKeyMatch uid lid) with
  | none => Except.error { status_code := 404, message := "Lesson not found" }
  | some l => Except.ok l

/-- Replace the first element satisfying `p` - the in-place mutation of the
single ORM row returned by a `.first()` query. -/
def setFirst {α : Type} (p : α → Bool) (f : α → α) : List α → List α
  | [] => []
  | l :: rest => if p l then f l :: rest else l :: setFirst p f rest

/-- `unlock_lesson_manually`: 404 when absent, 400 when not `LOCKED`,
otherwise `status = AVAILABLE` and `unlocked_at = now`.  The pair is
(store after the call, returned value or raised exception); on an
exception the store is untouched. -/
def unlock_lesson_manually (now : Int) (store : List UserLesson) (uid lid : Nat) :
    List UserLesson × Except APIException UserLesson :=
  match get_user_lesson store uid lid with
  | Except.error e => (store, Except.error e)
  | Except.ok l =>
    if l.status ≠ LessonStatus.locked then
      (store, Except.error { status_code := 400, message := "Lesson is not locked or already unlocked" })
    else
      let l2 := { l with status := LessonStatus.available, unlocked_at := some now }
      (setFirst (lessonKeyMatch uid lid) (fun _ => l2) store, Except.ok l2)

/-- `Week` query of `_find_next_lesson`:
`filter(Week.id > week_id).order_by(Week.id).first()`. -/
def firstWeekAfter (weeks : List Week) (wid : Nat) : Option Week :=
  (weeks.filter (fun w => decide (wid < w.id))).foldl
    (fun acc w =>
      match acc with
      | none => some w
      | some b => if w.id < b.id then some w else some b)
    none

/-- `_find_next_lesson`: the user lesson for the daily lesson with the next
`day_number` in the same week, or for day 1 of the first later week. -/
def find_next_lesson (weeks : List Week) (dls : List DailyLesson)
    (store : List UserLesson) (cur : UserLesson) : Option UserLesson :=
  match dls.find? (fun d => decide (d.id = cur.daily_lesson_id)) with
  | none => none
  | some dl =>
    match dls.find? (fun d => decide (d.week_id = dl.week_id) &&
        decide (d.day_number = dl.day_number + 1)) with
    | some nd =>
      store.find? (fun l => decide (l.user_id = cur.user_id) &&
        decide (l.daily_lesson_id = nd.id))
    | none =>
      match firstWeekAfter weeks dl.week_id with
      | none => none
      | some nw =>
        match dls.find? (fun d => decide (d.week_id = nw.id) &&
            decide (d.day_number = 1)) with
        | none => none
        | some fd =>
          store.find? (fun l => decide (l.user_id = cur.user_id) &&
            decide (l.daily_lesson_id = fd.id))

/-- `_unlock_next_lesson_if_ready`: when `days_between_lessons == 0`,
immediately unlock the next lesson if it exists and is `LOCKED`. -/
def unlock_next_lesson_if_ready (now : Int) (weeks : List Week) (dls : List DailyLesson)
    (store : List UserLesson) (completedLesson : UserLesson) : List UserLesson :=
  if completedLesson.days_between_lessons = 0 then
    match find_next_lesson weeks dls store completedLesson with
    | some nl =>
      if nl.status = LessonStatus.locked then
        setFirst (fun x => decide (x.id = nl.id))
          (fun x => { x with status := LessonStatus.available, unlocked_at := some now })
          store
      else store
    | none => store
  else store

/-- `_update_user_progress_on_lesson_completion`. -/
def update_user_progress_on_completion (today : Int) (progress : List UserProgress)
    (uid : Nat) (pts : Int) : List UserProgress :=
  match progress.find? (fun up => decide (up.user_id = uid)) with
  | none => progress
  | some _ =>
    setFirst (fun up => decide (up.user_id = uid))
      (fun up =>
        let up2 := { up with
          total_points_earned := up.total_points_earned + pts,
          total_lessons_completed := up.total_lessons_completed + 1,
          last_activity_date := some today,
          current_streak_days := up.current_streak_days + 1 }
        if up2.longest_streak_days < up2.current_streak_days then
          { up2 with longest_streak_days := up2.current_streak_days }
        else up2)
      progress

/-- Body of `LessonCompletionRequest`. -/
structure LessonCompletionRequest where
  points_earned : Int
deriving DecidableEq

/-- The mutation block of `complete_lesson`: `status = COMPLETED`,
`points_earned`, `completed_at = now`. -/
def completedLesson (now : Int) (pts : Int) (l : UserLesson) : UserLesson :=
  { l with status := LessonStatus.completed, points_earned := pts, completed_at := some now }

/-- `complete_lesson`: 404 when absent, 400 when already `COMPLETED`, 400
when `points_earned` is outside 0-25; otherwise the lesson becomes
`COMPLETED` with points and `completed_at` stamped, the user's progress row
is updated, and `_unlock_next_lesson_if_ready` may unlock the next lesson.
The result pairs the final (lesson store, progress store) with the returned
lesson or the raised exception; on an exception nothing is changed. -/
def complete_lesson (now : Int) (weeks : List Week) (dls : List DailyLesson)
    (store : List UserLesson) (progress : List UserProgress) (uid lid : Nat)
    (req : LessonCompletionRequest) :
    (List UserLesson × List UserProgress) × Except APIException UserLesson :=
  match get_user_lesson store uid lid with
  | Except.error e => ((store, progress), Except.error e)
  | Except.ok l =>
    if l.status = LessonStatus.completed then
      ((store, progress), Except.error { status_code := 400, message := "Lesson is already completed" })
    else if req.points_earned < 0 || 25 < req.points_earned then
      ((store, progress), Except.error { status_code := 400, message := "Points earned must be between 0 and 25" })
    else
      let l2 := completedLesson now req.points_earned l
      let store1 := setFirst (lessonKeyMatch uid lid) (fun _ => l2) store
      let progress2 := update_user_progress_on_completion now progress uid req.points_earned
      let store2 := unlock_next_lesson_if_ready now weeks dls store1 l2
      ((store2, progress2), Except.ok l2)

/-! ## Reachability of per-category lesson states

For one user and one category, the list (in template order) of that user's
lesson instances starts all `LOCKED` ("created in bulk when a user enters a
category") and is then modified only by the three core operations. -/

/-- States reachable by the full set of core operations: the scheduler tick,
the manual unlock, and lesson completion. -/
inductive Reachable : List UserLesson → Prop where
  | init (ls : List UserLesson) :
      (∀ l ∈ ls, l.status = LessonStatus.locked ∧ l.completed_at = none) →
      Reachable ls
  | tick (now : Int) (p : UserPreferences) (j : Option UserJourney) (ls : List UserLesson) :
      Reachable ls → Reachable (unlock_due_lessons_user now p j ls)
  | manual (now : Int) (uid lid : Nat) (ls : List UserLesson) :
      Reachable ls → Reachable (unlock_lesson_manually now ls uid lid).1
  | complete (now : Int) (weeks : List Week) (dls : List DailyLesson)
      (progress : List UserProgress) (uid lid : Nat) (req : LessonCompletionRequest)
      (ls : List UserLesson) :
      Reachable ls → Reachable (complete_lesson now weeks dls ls progress uid lid req).1.1

/-- States reachable by scheduler ticks alone. -/
inductive TickReachable : List UserLesson → Prop where
  | init (ls : List UserLesson) :
      (∀ l ∈ ls, l.status = LessonStatus.locked ∧ l.completed_at = none) →
      TickReachable ls
  | tick (now : Int) (p : UserPreferences) (j : Option UserJourney) (ls : List UserLesson) :
      TickReachable ls → TickReachable (unlock_due_lessons_user now p j ls)

/-! ## Concrete states used by counterexamples and witnesses -/

/-- A lesson row of user 1 with the given id, daily lesson, status and
completion timestamp; remaining fields at their creation defaults. -/
def mkLesson (lid dlid : Nat) (st : LessonStatus) (ca : Option Int) : UserLesson :=
  { id := lid, user_id := 1, daily_lesson_id := dlid, status := st, points_earned := 0,
    unlocked_at := none, started_at := none, completed_at := ca, days_between_lessons := 1 }

/-- Preferences with every weekday active, `lesson_time` 09:00 ET. -/
def pAll : UserPreferences :=
  { user_id := 1, active_days := ["mon", "tue", "wed", "thu", "fri", "sat", "sun"],
    lesson_time := "09:00", timezone := some "ET",
    reminder_enabled := "true", reminder_time := "14:00", reminder_type := "1" }

/-- An active journey on category `clarity`. -/
def journeyA : Option UserJourney :=
  some { user_id := 1, current_category := some "clarity", status := JourneyStatus.active }

/-- Two freshly created (all-`LOCKED`) lessons. -/
def c1init : List UserLesson :=
  [mkLesson 1 1 LessonStatus.locked none, mkLesson 2 2 LessonStatus.locked none]

/-- `c1init` after `unlock_lesson_manually` on the second lesson: the later
lesson is `AVAILABLE` while the earlier one is still `LOCKED`. -/
def c1bad : List UserLesson :=
  [mkLesson 1 1 LessonStatus.locked none,
   { mkLesson 2 2 LessonStatus.locked none with
       status := LessonStatus.available, unlocked_at := some 0 }]

/-- Four freshly created lessons. -/
def c2s0 : List UserLesson :=
  [mkLesson 1 1 LessonStatus.locked none, mkLesson 2 2 LessonStatus.locked none,
   mkLesson 3 3 LessonStatus.locked none, mkLesson 4 4 LessonStatus.locked none]

/-- `c2s0` after completing lesson 1 directly. -/
def c2s1 : List UserLesson :=
  [mkLesson 1 1 LessonStatus.completed (some 100), mkLesson 2 2 LessonStatus.locked none,
   mkLesson 3 3 LessonStatus.locked none, mkLesson 4 4 LessonStatus.locked none]

/-- `c2s0` after completing lessons 1 and 3 directly (both completions are
legal `complete_lesson` calls): completed, locked, completed, locked. -/
def c2bad : List UserLesson :=
  [mkLesson 1 1 LessonStatus.completed (some 100), mkLesson 2 2 LessonStatus.locked none,
   mkLesson 3 3 LessonStatus.completed (some 101), mkLesson 4 4 LessonStatus.locked none]

/-- A one-lesson prefix state. -/
def c2ok : List UserLesson := [mkLesson 1 1 LessonStatus.locked none]

/-- The C3 scenario user: `lesson_time` 09:00, timezone ET, only Monday
active. -/
def c3prefs : UserPreferences :=
  { user_id := 1, active_days := ["mon"],
    lesson_time := "09:00", timezone := some "ET",
    reminder_enabled := "true", reminder_time := "14:00", reminder_type := "1" }

/-- A week of category `consistency` with one daily lesson. -/
def c5weeks : List Week := [{ id := 1, week_number := 1, topic := "consistency" }]

/-- The daily lesson of `c5weeks`. -/
def c5dls : List DailyLesson := [{ id := 1, week_id := 1, day_number := 1 }]

/-- Reminder preferences: type 1 at 14:00 ET, all days active. -/
def c5prefs : UserPreferences :=
  { user_id := 1, active_days := ["mon", "tue", "wed", "thu", "fri", "sat", "sun"],
    lesson_time := "09:00", timezone := some "ET",
    reminder_enabled := "true", reminder_time := "14:00", reminder_type := "1" }

/-- An active journey whose current category is `clarity`. -/
def c5journey : UserJourney :=
  { user_id := 1, current_category := some "clarity", status := JourneyStatus.active }

/-- One `AVAILABLE` lesson belonging (through `c5dls`/`c5weeks`) to category
`consistency` - not to the journey's category `clarity`. -/
def c5lessons : List UserLesson := [mkLesson 1 1 LessonStatus.available none]

/-- A user record with a mobile number. -/
def c8user : UserRec := { id := 1, full_name := "Test User", mobile_number := some "017" }

/-- One reminder candidate row that fires at `now = 19` (14:00 ET). -/
def c8rows : List ReminderRow :=
  [{ prefs := c5prefs, user := c8user, lessons := c5lessons }]

/-- Store with a single `LOCKED` lesson of user 1. -/
def c9store : List UserLesson := [mkLesson 1 1 LessonStatus.locked none]

/-! # Theorems -/

/-- C6: the locale resolver does not fail closed on unknown timezone codes -
`TIMEZONE_OFFSETS.get(tz_code, -5)` silently falls back to the ET offset,
so every unknown code resolves to the same local hour and weekday as ET.
This refutes the claim's requirement (a `ConfigurationError`, no silent
default); the spec itself flags the behaviour as a bug of the source, so
the claim is right and the code is wrong. -/
theorem c6_unknown_tz_defaults_to_et (now : Int) (tz : String)
    (h : TIMEZONE_OFFSETS tz = none) :
    local_hour now tz = local_hour now "ET" ∧
      local_weekday_idx now tz = local_weekday_idx now "ET" := by
  have ho : tzOffsetOrDefault tz = -5 := by rw [tzOffsetOrDefault, h]; rfl
  have he : tzOffsetOrDefault "ET" = -5 := by decide
  constructor
  · rw [local_hour, local_hour, ho, he]
  · rw [local_weekday_idx, local_weekday_idx, ho, he]

/-- Witness for C6: the concrete unknown code `XYZ` resolves exactly as ET
does. -/
theorem c6_unknown_tz_defaults_to_et_witness :
    TIMEZONE_OFFSETS "XYZ" = none ∧ local_hour 0 "XYZ" = local_hour 0 "ET" :=
  ⟨by decide, (c6_unknown_tz_defaults_to_et 0 "XYZ" (by decide)).1⟩

/-- C7: when the batch write of an unlock tick fails, the `except` branch
rolls the session back and re-raises: the committed store is unchanged (no
lesson's status or `unlocked_at` is persisted) and the pending view is
restored to it. -/
theorem c7_unlock_tick_rollback (now : Int) (s : DbSession) :
    (unlock_due_lessons_batch false now s).1.committed = s.committed ∧
      (unlock_due_lessons_batch false now s).1.pending = s.committed ∧
      (unlock_due_lessons_batch false now s).2 = Except.error "PersistenceFailure" :=
  ⟨rfl, rfl, rfl⟩

/-- `_send_notification` makes the same gateway calls and returns normally
whatever the gateway outcomes are: its `except` clause absorbs both the
`false` return and a thrown exception. -/
theorem send_notification_gw_irrelevant (gw gw2 : Nat → GatewayOutcome)
    (users : List UserRec) (uid : Nat) :
    send_notification gw users uid = send_notification gw2 users uid := by
  unfold send_notification send_notification_raw
  cases users.find? (fun u => decide (u.id = uid)) with
  | none => rfl
  | some u =>
    obtain ⟨i, n, mob⟩ := u
    cases mob with
    | none => rfl
    | some m => cases gw uid <;> cases gw2 uid <;> rfl

/-- The loop body of `send_daily_reminders` never propagates an exception. -/
theorem processReminderRow_ok (gw : Nat → GatewayOutcome) (now : Int) (users : List UserRec)
    (acc : Nat × List Nat) (row : ReminderRow) :
    processReminderRow gw now users acc row =
      Except.ok (if reminderFires now row.prefs row.lessons then
          (acc.1 + 1, acc.2 ++ send_notification gw users row.prefs.user_id)
        else acc) := by
  unfold processReminderRow
  by_cases h : reminderFires now row.prefs row.lessons = true
  · simp [h]
  · simp only [Bool.not_eq_true] at h
    simp [h]

/-- The whole candidate fold of `send_daily_reminders` succeeds and computes
the same result for any two gateway behaviours. -/
theorem reminders_fold_ok (gw gw2 : Nat → GatewayOutcome) (now : Int) (users : List UserRec) :
    ∀ (rows : List ReminderRow) (acc : Nat × List Nat),
      rows.foldlM (processReminderRow gw now users) acc =
        rows.foldlM (processReminderRow gw2 now users) acc ∧
      ∃ r, rows.foldlM (processReminderRow gw now users) acc = Except.ok r := by
  intro rows
  induction rows with
  | nil => exact fun acc => ⟨rfl, acc, rfl⟩
  | cons row rest ih =>
    intro acc
    rw [List.foldlM_cons, List.foldlM_cons, processReminderRow_ok gw,
      processReminderRow_ok gw2, send_notification_gw_irrelevant gw gw2 users]
    exact ih _

/-- C8: a gateway failure or exception for one user never aborts the
reminder tick - the tick's result (sent count and the set of users for whom
delivery was attempted) is identical for every combination of per-user
gateway outcomes, and the tick always returns normally. -/
theorem c8_reminder_isolates_gateway_failures (gw gw2 : Nat → GatewayOutcome) (now : Int)
    (users : List UserRec) (rows : List ReminderRow) :
    send_daily_reminders_model gw now users rows =
        send_daily_reminders_model gw2 now users rows ∧
      ∃ r, send_daily_reminders_model gw now users rows = Except.ok r := by
  unfold send_daily_reminders_model
  exact reminders_fold_ok gw gw2 now users rows (0, [])

/-- C9: `unlock_lesson_manually` on an existing `LOCKED` instance makes it
`AVAILABLE` with `unlocked_at` stamped, for every instant `now` - the
operation reads no preference, hour or weekday input, so time/day gating is
bypassed by construction; a missing instance yields the 404
`APIException` with the store untouched, and a non-`LOCKED` instance yields
the 400 `APIException` with the store untouched. -/
theorem c9_manual_unlock_spec (now : Int) (store : List UserLesson) (uid lid : Nat) :
    (∀ l, store.find? (lessonKeyMatch uid lid) = some l → l.status = LessonStatus.locked →
      unlock_lesson_manually now store uid lid =
        (setFirst (lessonKeyMatch uid lid)
          (fun _ => { l with status := LessonStatus.available, unlocked_at := some now }) store,
         Except.ok { l with status := LessonStatus.available, unlocked_at := some now })) ∧
    (store.find? (lessonKeyMatch uid lid) = none →
      unlock_lesson_manually now store uid lid =
        (store, Except.error { status_code := 404, message := "Lesson not found" })) ∧
    (∀ l, store.find? (lessonKeyMatch uid lid) = some l → l.status ≠ LessonStatus.locked →
      unlock_lesson_manually now store uid lid =
        (store,
          Except.error
            { status_code := 400, message := "Lesson is not locked or already unlocked" })) := by
  refine ⟨?_, ?_, ?_⟩
  · intro l hf hl
    unfold unlock_lesson_manually get_user_lesson
    rw [hf]
    simp [hl]
  · intro hf
    unfold unlock_lesson_manually get_user_lesson
    rw [hf]
  · intro l hf hl
    unfold unlock_lesson_manually get_user_lesson
    rw [hf]
    simp [hl]

/-- Witness for C9: both the success branch and the missing-instance branch
at a concrete store. -/
theorem c9_manual_unlock_spec_witness :
    unlock_lesson_manually 7 c9store 1 1 =
      (setFirst (lessonKeyMatch 1 1)
        (fun _ => { mkLesson 1 1 LessonStatus.locked none with
          status := LessonStatus.available, unlocked_at := some 7 }) c9store,
       Except.ok { mkLesson 1 1 LessonStatus.locked none with
          status := LessonStatus.available, unlocked_at := some 7 }) ∧
    unlock_lesson_manually 7 c9store 1 99 =
      (c9store, Except.error { status_code := 404, message := "Lesson not found" }) :=
  ⟨(c9_manual_unlock_spec 7 c9store 1 1).1 (mkLesson 1 1 LessonStatus.locked none)
      (by decide) (by decide),
   (c9_manual_unlock_spec 7 c9store 1 99).2.1 (by decide)⟩

/-- C4: whenever the reminder engine reaches `_send_notification` for a
user, the user's `reminder_type` is not `"0"`, the user's current local
weekday is one of their `active_days`, a type-`"1"` user's local hour
equals the `reminder_time` hour, and a type-`"2"` user's local hour equals
that hour or that hour plus two (mod 24). -/
theorem c4_reminder_fire_rules (now : Int) (p : UserPreferences) (ls : List UserLesson)
    (h : reminderFires now p ls = true) :
    p.reminder_type ≠ "0" ∧
      day_mapping (local_weekday_idx now (userTz p)) ∈ p.active_days ∧
      (p.reminder_type = "1" →
        timeFieldHour p.reminder_time = some (local_hour now (userTz p))) ∧
      (p.reminder_type = "2" → ∃ rh, timeFieldHour p.reminder_time = some rh ∧
        (local_hour now (userTz p) = rh ∨ local_hour now (userTz p) = (rh + 2) % 24)) := by
  unfold reminderFires reminderCandidate reminderActiveDayOk at h
  simp only [Bool.and_eq_true, decide_eq_true_eq] at h
  obtain ⟨⟨⟨⟨⟨hen, hty0⟩, hlike⟩, hsend⟩, hday⟩, hcnt⟩ := h
  refine ⟨hty0, hday, ?_, ?_⟩
  · intro hty1
    unfold reminderShouldSend at hsend
    rcases hth : timeFieldHour p.reminder_time with _ | rh
    · rw [hth] at hsend; simp at hsend
    · rw [hth, hty1] at hsend
      simp at hsend
      rw [hsend]
  · intro hty2
    unfold reminderShouldSend at hsend
    rcases hth : timeFieldHour p.reminder_time with _ | rh
    · rw [hth] at hsend; simp at hsend
    · rw [hth, hty2] at hsend
      simp at hsend
      exact ⟨rh, rfl, hsend⟩

/-- Witness for C4: a type-`"1"` user firing at 14:00 ET. -/
theorem c4_reminder_fire_rules_witness :
    c5prefs.reminder_type ≠ "0" ∧
      day_mapping (local_weekday_idx 19 (userTz c5prefs)) ∈ c5prefs.active_days ∧
      (c5prefs.reminder_type = "1" →
        timeFieldHour c5prefs.reminder_time = some (local_hour 19 (userTz c5prefs))) ∧
      (c5prefs.reminder_type = "2" → ∃ rh, timeFieldHour c5prefs.reminder_time = some rh ∧
        (local_hour 19 (userTz c5prefs) = rh ∨ local_hour 19 (userTz c5prefs) = (rh + 2) % 24)) :=
  c4_reminder_fire_rules 19 c5prefs c5lessons (by decide)

/-- C5 counterexample: the reminder engine's `AVAILABLE` count is not
restricted to the journey's active category.  User 1's active category is
`clarity`, their only `AVAILABLE` instance belongs to category
`consistency`, so the claim's category-restricted count is zero - yet the
engine still reaches `_send_notification` at 14:00 ET. -/
theorem c5_category_count_refuted :
    c5journey.status = JourneyStatus.active ∧
      c5journey.current_category = some "clarity" ∧
      spec_availableCountInCategory c5weeks c5dls c5lessons "clarity" = 0 ∧
      reminderFires 19 c5prefs c5lessons = true :=
  ⟨rfl, rfl, by decide, by decide⟩

/-- C5 amended: the engine counts ALL of the user's `AVAILABLE` instances
(no category restriction); when that count is zero no notification is sent
that tick - in particular a user who completed their only `AVAILABLE`
instance (leaving none in any category) receives no reminder. -/
theorem c5_reminder_autostop (now : Int) (p : UserPreferences) (ls : List UserLesson)
    (h : availableCount ls = 0) : reminderFires now p ls = false := by
  unfold reminderFires
  simp [h]

/-- Witness for C5 amended: a user with an empty lesson store gets no
reminder even at their reminder hour. -/
theorem c5_reminder_autostop_witness :
    availableCount ([] : List UserLesson) = 0 ∧ reminderFires 19 c5prefs [] = false :=
  ⟨rfl, c5_reminder_autostop 19 c5prefs [] rfl⟩

/-! ## Lemmas about the scan of `_get_next_lesson_to_unlock` -/

/-- An all-`LOCKED` suffix satisfies the ordering invariant. -/
theorem allLocked_isPrefixState : ∀ ls : List UserLesson,
    allLocked ls = true → isPrefixState ls = true := by
  intro ls
  induction ls with
  | nil => intro _; rfl
  | cons l rest ih =>
    intro h
    rw [allLocked, List.all_cons] at h
    simp only [Bool.and_eq_true, decide_eq_true_eq] at h
    unfold isPrefixState
    rw [if_pos h.1]
    exact h.2

/-- The scan cannot fire on an all-`LOCKED` list whose carried previous
lesson has no `completed_at`. -/
theorem scan_blocked (pl : UserLesson) (h : pl.completed_at.isSome = false) :
    ∀ rest : List UserLesson, allLocked rest = true →
      nextToUnlock (some pl) rest = none := by
  intro rest hall
  cases rest with
  | nil => rfl
  | cons r rr =>
    rw [allLocked, List.all_cons] at hall
    simp only [Bool.and_eq_true, decide_eq_true_eq] at hall
    unfold nextToUnlock
    simp [hall.1, h]

/-- If the scan finds a lesson, the list has a `LOCKED` lesson. -/
theorem scan_some_hasLocked : ∀ (ls : List UserLesson) (prev : Option UserLesson) (i : Nat),
    nextToUnlock prev ls = some i → userHasLockedLesson ls = true := by
  intro ls
  induction ls with
  | nil => intro prev i h; exact absurd h (by simp [nextToUnlock])
  | cons l rest ih =>
    intro prev i h
    by_cases hl : l.status = LessonStatus.locked
    · unfold userHasLockedLesson
      rw [List.any_cons]
      simp [hl]
    · unfold nextToUnlock at h
      rw [if_neg hl] at h
      cases hj : nextToUnlock (some l) rest with
      | none => rw [hj] at h; exact absurd h (by simp)
      | some j =>
        unfold userHasLockedLesson
        rw [List.any_cons]
        have := ih (some l) j hj
        unfold userHasLockedLesson at this
        rw [this, Bool.or_true]

/-- Unlocking the lesson the scan found removes exactly one `LOCKED`
lesson. -/
theorem lockedCount_unlockAt (t : Int) : ∀ (ls : List UserLesson) (prev : Option UserLesson)
    (i : Nat), nextToUnlock prev ls = some i →
    lockedCount (unlockAt t ls i) + 1 = lockedCount ls := by
  intro ls
  induction ls with
  | nil => intro prev i h; exact absurd h (by simp [nextToUnlock])
  | cons l rest ih =>
    intro prev i h
    by_cases hl : l.status = LessonStatus.locked
    · unfold nextToUnlock at h
      rw [if_pos hl] at h
      have hi : i = 0 := by
        cases prev with
        | none => simpa using h.symm
        | some pl =>
          rcases hc : pl.completed_at.isSome with _ | _
          · simp [hc] at h
          · simp [hc] at h; omega
      subst hi
      show lockedCount (unlockedLesson t l :: rest) + 1 = lockedCount (l :: rest)
      unfold lockedCount
      rw [List.filter_cons, List.filter_cons]
      simp [hl, unlockedLesson]
    · unfold nextToUnlock at h
      rw [if_neg hl] at h
      cases hj : nextToUnlock (some l) rest with
      | none => rw [hj] at h; exact absurd h (by simp)
      | some j =>
        rw [hj] at h
        obtain rfl : j + 1 = i := by simpa using h
        show lockedCount (l :: unlockAt t rest j) + 1 = lockedCount (l :: rest)
        unfold lockedCount
        rw [List.filter_cons, List.filter_cons]
        have hrec := ih (some l) j hj
        unfold lockedCount at hrec
        simp [hl]
        omega

/-- Unlocking the lesson the scan found preserves the ordering invariant. -/
theorem isPrefixState_unlockAt (t : Int) : ∀ (ls : List UserLesson),
    isPrefixState ls = true → ∀ (prev : Option UserLesson) (i : Nat),
    nextToUnlock prev ls = some i → isPrefixState (unlockAt t ls i) = true := by
  intro ls
  induction ls with
  | nil => intro _ prev i h; exact absurd h (by simp [nextToUnlock])
  | cons l rest ih =>
    intro hpre prev i h
    by_cases hl : l.status = LessonStatus.locked
    · unfold nextToUnlock at h
      rw [if_pos hl] at h
      have hi : i = 0 := by
        cases prev with
        | none => simpa using h.symm
        | some pl =>
          rcases hc : pl.completed_at.isSome with _ | _
          · simp [hc] at h
          · simp [hc] at h; omega
      subst hi
      unfold isPrefixState at hpre
      rw [if_pos hl] at hpre
      show isPrefixState (unlockedLesson t l :: rest) = true
      unfold isPrefixState
      rw [if_neg (by simp [unlockedLesson])]
      exact allLocked_isPrefixState rest hpre
    · unfold nextToUnlock at h
      rw [if_neg hl] at h
      cases hj : nextToUnlock (some l) rest with
      | none => rw [hj] at h; exact absurd h (by simp)
      | some j =>
        rw [hj] at h
        obtain rfl : j + 1 = i := by simpa using h
        unfold isPrefixState at hpre
        rw [if_neg hl] at hpre
        show isPrefixState (l :: unlockAt t rest j) = true
        unfold isPrefixState
        rw [if_neg hl]
        exact ih hpre (some l) j hj

/-- After unlocking the lesson the scan found in a prefix state with
consistent timestamps, a second scan finds nothing: the freshly unlocked
lesson is its successor's predecessor and has no `completed_at`. -/
theorem scan_after_unlock (t : Int) : ∀ (ls : List UserLesson),
    isPrefixState ls = true → timestampsWF ls = true →
    ∀ (prev : Option UserLesson) (i : Nat), nextToUnlock prev ls = some i →
    nextToUnlock prev (unlockAt t ls i) = none := by
  intro ls
  induction ls with
  | nil => intro _ _ prev i h; exact absurd h (by simp [nextToUnlock])
  | cons l rest ih =>
    intro hpre hwf prev i h
    rw [timestampsWF, List.all_cons] at hwf
    simp only [Bool.and_eq_true, decide_eq_true_eq] at hwf
    by_cases hl : l.status = LessonStatus.locked
    · unfold nextToUnlock at h
      rw [if_pos hl] at h
      have hi : i = 0 := by
        cases prev with
        | none => simpa using h.symm
        | some pl =>
          rcases hc : pl.completed_at.isSome with _ | _
          · simp [hc] at h
          · simp [hc] at h; omega
      subst hi
      unfold isPrefixState at hpre
      rw [if_pos hl] at hpre
      have hnc : (unlockedLesson t l).completed_at.isSome = false := by
        show l.completed_at.isSome = false
        rcases hs : l.completed_at.isSome with _ | _
        · rfl
        · exact absurd (hwf.1.mp hs) (by rw [hl]; decide)
      show nextToUnlock prev (unlockedLesson t l :: rest) = none
      unfold nextToUnlock
      rw [if_neg (by simp [unlockedLesson])]
      rw [scan_blocked _ hnc rest hpre]
      rfl
    · unfold nextToUnlock at h
      rw [if_neg hl] at h
      cases hj : nextToUnlock (some l) rest with
      | none => rw [hj] at h; exact absurd h (by simp)
      | some j =>
        rw [hj] at h
        obtain rfl : j + 1 = i := by simpa using h
        unfold isPrefixState at hpre
        rw [if_neg hl] at hpre
        show nextToUnlock prev (l :: unlockAt t rest j) = none
        unfold nextToUnlock
        rw [if_neg hl]
        rw [ih hpre hwf.2 (some l) j hj]
        rfl

/-- One scheduler tick preserves the ordering invariant: it only ever
unlocks the first `LOCKED` lesson. -/
theorem isPrefixState_tick (now : Int) (p : UserPreferences) (j : Option UserJourney)
    (ls : List UserLesson) (h : isPrefixState ls = true) :
    isPrefixState (unlock_due_lessons_user now p j ls) = true := by
  unfold unlock_due_lessons_user
  by_cases hA : (hourCandidate now p && userHourDayMatch now p && userHasLockedLesson ls) = true
  · rw [if_pos hA]
    by_cases hB : journeyEligible j = true
    · rw [if_pos hB]
      cases hscan : nextLessonIdxToUnlock ls with
      | none => exact h
      | some i => exact isPrefixState_unlockAt _ ls h none i hscan
    · rw [if_neg hB]; exact h
  · rw [if_neg hA]; exact h

/-- C1 amended: the ordering invariant does hold for every state reachable
from the bulk-created all-`LOCKED` state using scheduler ticks only.  (The
claim as stated fails because manual unlock and direct completion are not
ordering-preserving; see the counterexample.) -/
theorem c1_tick_ordering_invariant (ls : List UserLesson) (h : TickReachable ls) :
    isPrefixState ls = true := by
  induction h with
  | init ls h0 =>
    apply allLocked_isPrefixState
    rw [allLocked, List.all_eq_true]
    intro l hl
    exact decide_eq_true (h0 l hl).1
  | tick now p j ls hr ih => exact isPrefixState_tick now p j ls ih

/-- Witness for C1 amended: a concrete tick-reachable state satisfies the
invariant. -/
theorem c1_tick_ordering_invariant_witness :
    isPrefixState (unlock_due_lessons_user 110 c3prefs journeyA c2ok) = true :=
  c1_tick_ordering_invariant _
    (TickReachable.tick 110 c3prefs journeyA c2ok (TickReachable.init c2ok (by decide)))

/-- C1 counterexample: `unlock_lesson_manually` checks existence and
`LOCKED` status but not the predecessor, so from two bulk-created `LOCKED`
lessons one manual unlock of the second reaches a state in which a later
instance is `AVAILABLE` while the earlier one is still `LOCKED` - the
`Available`/`Completed` set is not a prefix of the template order. -/
theorem c1_manual_unlock_breaks_ordering :
    Reachable c1bad ∧ isPrefixState c1bad = false := by
  constructor
  · have e : (unlock_lesson_manually 0 c1init 1 2).1 = c1bad := by decide
    exact e ▸ Reachable.manual 0 1 2 c1init (Reachable.init c1init (by decide))
  · decide

/-- C2 counterexample: in a state where a `COMPLETED` lesson sits after the
first `LOCKED` one (reachable, because `complete_lesson` accepts `LOCKED`
lessons), the first tick unlocks lesson 2 and the second tick for the very
same instant unlocks lesson 4: the second run is not a no-op. -/
theorem c2_second_tick_unlocks_again :
    Reachable c2bad ∧
      unlock_due_lessons_user 14 pAll journeyA (unlock_due_lessons_user 14 pAll journeyA c2bad)
        ≠ unlock_due_lessons_user 14 pAll journeyA c2bad := by
  constructor
  · have e1 : (complete_lesson 100 [] [] c2s0 [] 1 1 ⟨0⟩).1.1 = c2s1 := by decide
    have e2 : (complete_lesson 101 [] [] c2s1 [] 1 3 ⟨0⟩).1.1 = c2bad := by decide
    exact e2 ▸ Reachable.complete 101 [] [] [] 1 3 ⟨0⟩ c2s1
      (e1 ▸ Reachable.complete 100 [] [] [] 1 1 ⟨0⟩ c2s0 (Reachable.init c2s0 (by decide)))
  · decide

/-- C2 amended: on a state satisfying the ordering invariant (with
`completed_at` stamped exactly on `COMPLETED` lessons - true of every state
the service itself produces), one tick unlocks at most one lesson for the
user and running the same tick again changes nothing. -/
theorem c2_unlock_tick_idempotent (now : Int) (p : UserPreferences) (j : Option UserJourney)
    (ls : List UserLesson) (hpre : isPrefixState ls = true) (hwf : timestampsWF ls = true) :
    unlock_due_lessons_user now p j (unlock_due_lessons_user now p j ls) =
        unlock_due_lessons_user now p j ls ∧
      lockedCount ls ≤ lockedCount (unlock_due_lessons_user now p j ls) + 1 := by
  by_cases hA : (hourCandidate now p && userHourDayMatch now p && userHasLockedLesson ls) = true
  · have hA12 : (hourCandidate now p && userHourDayMatch now p) = true :=
      (Bool.and_eq_true .. |>.mp hA).1
    by_cases hB : journeyEligible j = true
    · cases hscan : nextLessonIdxToUnlock ls with
      | none =>
        have hres : unlock_due_lessons_user now p j ls = ls := by
          unfold unlock_due_lessons_user
          rw [if_pos hA, if_pos hB, hscan]
        rw [hres, hres]
        exact ⟨rfl, Nat.le_succ _⟩
      | some i =>
        have hres : unlock_due_lessons_user now p j ls =
            unlockAt (now + tzOffsetOrDefault (userTz p)) ls i := by
          unfold unlock_due_lessons_user
          rw [if_pos hA, if_pos hB, hscan]
        constructor
        · rw [hres]
          by_cases hL2 : userHasLockedLesson
              (unlockAt (now + tzOffsetOrDefault (userTz p)) ls i) = true
          · have hscan2 : nextLessonIdxToUnlock
                (unlockAt (now + tzOffsetOrDefault (userTz p)) ls i) = none :=
              scan_after_unlock _ ls hpre hwf none i hscan
            unfold unlock_due_lessons_user
            rw [hA12, Bool.true_and, hL2, if_pos rfl, if_pos hB, hscan2]
          · rw [Bool.not_eq_true] at hL2
            unfold unlock_due_lessons_user
            rw [hA12, Bool.true_and, hL2, if_neg (by decide)]
        · rw [hres]
          have := lockedCount_unlockAt (now + tzOffsetOrDefault (userTz p)) ls none i hscan
          omega
    · have hres : unlock_due_lessons_user now p j ls = ls := by
        unfold unlock_due_lessons_user
        rw [if_pos hA, if_neg hB]
      rw [hres, hres]
      exact ⟨rfl, Nat.le_succ _⟩
  · have hres : unlock_due_lessons_user now p j ls = ls := by
      unfold unlock_due_lessons_user
      rw [if_neg hA]
    rw [hres, hres]
    exact ⟨rfl, Nat.le_succ _⟩

/-- Witness for C2 amended: a concrete prefix state at a matching hour. -/
theorem c2_unlock_tick_idempotent_witness :
    unlock_due_lessons_user 14 pAll journeyA (unlock_due_lessons_user 14 pAll journeyA c2ok) =
        unlock_due_lessons_user 14 pAll journeyA c2ok ∧
      lockedCount c2ok ≤ lockedCount (unlock_due_lessons_user 14 pAll journeyA c2ok) + 1 :=
  c2_unlock_tick_idempotent 14 pAll journeyA c2ok (by decide) (by decide)

/-- C3: for the scenario user (`lesson_time` 09:00, timezone ET, only
Monday active, with an active journey), a tick at an instant whose ET-local
time has hour 9 on a Monday unlocks exactly the lesson found by
`_get_next_lesson_to_unlock` - the first `LOCKED` one, provided its
predecessor is completed or absent - when one exists (the `unlocked_at`
stamp is the ET-local instant `now + (-5)`), and nothing otherwise; a tick
at ET-local hour 8, or on a Tuesday, unlocks nothing. -/
theorem c3_time_gating (now : Int) (j : Option UserJourney) (ls : List UserLesson)
    (hj : journeyEligible j = true) :
    (local_hour now "ET" = 9 → day_mapping (local_weekday_idx now "ET") = "mon" →
      (∀ i, nextLessonIdxToUnlock ls = some i →
        unlock_due_lessons_user now c3prefs j ls = unlockAt (now + (-5)) ls i ∧
          lockedCount (unlock_due_lessons_user now c3prefs j ls) + 1 = lockedCount ls) ∧
      (nextLessonIdxToUnlock ls = none → unlock_due_lessons_user now c3prefs j ls = ls)) ∧
    (local_hour now "ET" = 8 → unlock_due_lessons_user now c3prefs j ls = ls) ∧
    (day_mapping (local_weekday_idx now "ET") = "tue" →
      unlock_due_lessons_user now c3prefs j ls = ls) := by
  have hTz : userTz c3prefs = "ET" := by decide
  refine ⟨?_, ?_, ?_⟩
  · intro h9 hmon
    have hhc : hourCandidate now c3prefs = true := by
      unfold hourCandidate targetHoursUnlock tzCodes
      simp only [List.map_cons, List.map_nil, List.any_cons, List.any_nil]
      rw [h9, show likeHourMatch 9 c3prefs.lesson_time = true from by decide, Bool.true_or]
    have hm : userHourDayMatch now c3prefs = true := by
      unfold userHourDayMatch
      rw [hTz, h9, hmon, show timeFieldHour c3prefs.lesson_time = some 9 from by decide]
      decide
    have hoff : tzOffsetOrDefault (userTz c3prefs) = -5 := by decide
    constructor
    · intro i hscan
      have hL : userHasLockedLesson ls = true := scan_some_hasLocked ls none i hscan
      have hres : unlock_due_lessons_user now c3prefs j ls = unlockAt (now + (-5)) ls i := by
        unfold unlock_due_lessons_user
        rw [hhc, hm, hL, hoff]
        simp [hj, hscan]
      refine ⟨hres, ?_⟩
      rw [hres]
      exact lockedCount_unlockAt (now + (-5)) ls none i hscan
    · intro hscan
      by_cases hL : userHasLockedLesson ls = true
      · unfold unlock_due_lessons_user
        rw [hhc, hm, hL]
        simp [hj, hscan]
      · rw [Bool.not_eq_true] at hL
        unfold unlock_due_lessons_user
        rw [hhc, hm, hL]
        simp
  · intro h8
    have hm8 : userHourDayMatch now c3prefs = false := by
      unfold userHourDayMatch
      rw [hTz, h8, show timeFieldHour c3prefs.lesson_time = some 9 from by decide]
      simp
    unfold unlock_due_lessons_user
    rw [hm8]
    simp
  · intro htue
    have hmT : userHourDayMatch now c3prefs = false := by
      unfold userHourDayMatch
      rw [hTz, htue,
        show (decide ("tue" ∈ c3prefs.active_days)) = false from by decide, Bool.false_and]
    unfold unlock_due_lessons_user
    rw [hmT]
    simp

/-- Witness for C3: instant 110 is 09:00 ET on a Monday (one lesson
unlocked), 109 is 08:00 ET Monday (nothing), 134 is 09:00 ET on a Tuesday
(nothing). -/
theorem c3_time_gating_witness :
    unlock_due_lessons_user 110 c3prefs journeyA c2ok = unlockAt (110 + (-5)) c2ok 0 ∧
      unlock_due_lessons_user 109 c3prefs journeyA c2ok = c2ok ∧
      unlock_due_lessons_user 134 c3prefs journeyA c2ok = c2ok :=
  ⟨(((c3_time_gating 110 journeyA c2ok (by decide)).1 (by decide) (by decide)).1 0
      (by decide)).1,
   (c3_time_gating 109 journeyA c2ok (by decide)).2.1 (by decide),
   (c3_time_gating 134 journeyA c2ok (by decide)).2.2 (by decide)⟩

/-- C10: `complete_lesson` raises exactly on a missing instance (404), an
already-`COMPLETED` instance (400), or points outside 0-25 (400), leaving
both stores untouched; otherwise - in particular on a `LOCKED` instance
that was never `AVAILABLE` - it succeeds and returns the instance moved
straight to `COMPLETED` with the points and `completed_at` stamped. -/
theorem c10_complete_lesson_spec (now : Int) (weeks : List Week) (dls : List DailyLesson)
    (store : List UserLesson) (progress : List UserProgress) (uid lid : Nat)
    (req : LessonCompletionRequest) :
    (store.find? (lessonKeyMatch uid lid) = none →
      complete_lesson now weeks dls store progress uid lid req =
        ((store, progress), Except.error { status_code := 404, message := "Lesson not found" })) ∧
    (∀ l, store.find? (lessonKeyMatch uid lid) = some l → l.status = LessonStatus.completed →
      complete_lesson now weeks dls store progress uid lid req =
        ((store, progress),
          Except.error { status_code := 400, message := "Lesson is already completed" })) ∧
    (∀ l, store.find? (lessonKeyMatch uid lid) = some l → l.status ≠ LessonStatus.completed →
      (req.points_earned < 0 ∨ 25 < req.points_earned) →
      complete_lesson now weeks dls store progress uid lid req =
        ((store, progress),
          Except.error
            { status_code := 400, message := "Points earned must be between 0 and 25" })) ∧
    (∀ l, store.find? (lessonKeyMatch uid lid) = some l → l.status ≠ LessonStatus.completed →
      0 ≤ req.points_earned → req.points_earned ≤ 25 →
      (complete_lesson now weeks dls store progress uid lid req).2 =
        Except.ok (completedLesson now req.points_earned l)) := by
  refine ⟨?_, ?_, ?_, ?_⟩
  · intro hf
    unfold complete_lesson get_user_lesson
    rw [hf]
  · intro l hf hc
    unfold complete_lesson get_user_lesson
    rw [hf]
    simp [hc]
  · intro l hf hc hp
    unfold complete_lesson get_user_lesson
    rw [hf]
    have hq : (decide (req.points_earned < 0) || decide (25 < req.points_earned)) = true := by
      rcases hp with h | h
      · simp [h]
      · simp [h]
    simp [hc, hq]
  · intro l hf hc h0 h25
    unfold complete_lesson get_user_lesson
    rw [hf]
    have hq : (decide (req.points_earned < 0) || decide (25 < req.points_earned)) = false := by
      simp
      omega
    simp [hc, hq]

/-- Witness for C10: completing the `LOCKED` lesson of `c9store` with 10
points succeeds and moves it straight to `COMPLETED`; a missing id raises
404 and changes nothing. -/
theorem c10_complete_lesson_spec_witness :
    (complete_lesson 50 [] [] c9store [] 1 1 ⟨10⟩).2 =
      Except.ok (completedLesson 50 10 (mkLesson 1 1 LessonStatus.locked none)) ∧
    complete_lesson 50 [] [] c9store [] 1 99 ⟨10⟩ =
      ((c9store, []), Except.error { status_code := 404, message := "Lesson not found" }) :=
  ⟨(c10_complete_lesson_spec 50 [] [] c9store [] 1 1 ⟨10⟩).2.2.2
      (mkLesson 1 1 LessonStatus.locked none) (by decide) (by decide) (by decide) (by decide),
   (c10_complete_lesson_spec 50 [] [] c9store [] 1 99 ⟨10⟩).1 (by decide)⟩

end LeaderScheduler
